import Mathlib

/-!
Shallow embedding of the openvas-scanner control-plane model crates
(`models/src/status.rs`, `models/src/credential.rs`) and of the
`openvasd` controller (`controller/context.rs`, `controller/mod.rs`),
together with proofs of the behavioural properties stated about them.

Machine integers (`u16` ports, `usize` counters) are embedded as `Nat`;
`Result<T, E>` becomes `Except E T`; `Duration` becomes a `Nat` tick
count.  Parts of the repository that the properties depend on but whose
sources are not part of the model crates (the in-memory store, the HTTP
entry layer, the `censor` serializer and the `response` module) are
modelled from the specification; each such definition is marked with a
doc comment starting `Modelled from the spec:`.
-/

namespace OpenVAS

/-! ## Phase and Status (`models/src/status.rs`) -/

/-- Enum of the possible phases of a scan (`Phase` in `status.rs`). -/
inductive Phase where
  | Stored
  | Requested
  | Running
  | Stopped
  | Failed
  | Succeeded
deriving DecidableEq

/-- Rust: `#[default]` on `Phase::Stored` (derived `Default`). -/
def Phase.default : Phase := Phase.Stored

/-- Rust: `Phase::is_running`, `matches!(self, Self::Running | Self::Requested)`. -/
def Phase.is_running : Phase → Bool
  | Phase.Running => true
  | Phase.Requested => true
  | _ => false

/-- Rust: `impl Display for Phase` in `status.rs`. -/
def Phase.fmt : Phase → String
  | Phase.Requested => "requested"
  | Phase.Running => "running"
  | Phase.Stopped => "stopped"
  | Phase.Failed => "failed"
  | Phase.Succeeded => "succeeded"
  | Phase.Stored => "stored"

/-- The wire name of a `Phase` variant under `#[serde(rename_all = "snake_case")]`:
the snake_case form of the variant identifier. -/
def Phase.serde_name : Phase → String
  | Phase.Stored => "stored"
  | Phase.Requested => "requested"
  | Phase.Running => "running"
  | Phase.Stopped => "stopped"
  | Phase.Failed => "failed"
  | Phase.Succeeded => "succeeded"

/-- Modelled from the spec: `HostInfo` (its source `host_info.rs` is not among
the provided files) carries the counts all, excluded, dead, alive, queued and
finished reported by the scanner. -/
structure HostInfo where
  all : Nat
  excluded : Nat
  dead : Nat
  alive : Nat
  queued : Nat
  finished : Nat
deriving DecidableEq

/-- Status information about a scan (`Status` in `status.rs`). -/
structure Status where
  start_time : Option Nat := none
  end_time : Option Nat := none
  status : Phase := Phase.default
  host_info : Option HostInfo := none
deriving DecidableEq

/-- Rust: derived `Default` for `Status` (all fields at their defaults). -/
def Status.default : Status := {}

/-- Rust: `Status::is_running`, delegates to the phase. -/
def Status.is_running (s : Status) : Bool := s.status.is_running

/-- Rust: `Status::is_done`, `!self.is_running()`. -/
def Status.is_done (s : Status) : Bool := !s.is_running

/-! ## Credentials (`models/src/credential.rs`) -/

/-- Enum of available services (`Service` in `credential.rs`). -/
inductive Service where
  | SSH
  | SMB
  | ESXi
  | SNMP
deriving DecidableEq

/-- Rust: `impl AsRef<str> for Service`. -/
def Service.as_ref : Service → String
  | Service.SSH => "ssh"
  | Service.SMB => "smb"
  | Service.ESXi => "esxi"
  | Service.SNMP => "snmp"

/-- The wire name of a `Service` variant from its `#[serde(rename = "...")]`
attribute in `credential.rs`. -/
def Service.serde_name : Service → String
  | Service.SSH => "ssh"
  | Service.SMB => "smb"
  | Service.ESXi => "esxi"
  | Service.SNMP => "snmp"

/-- Enum representing the type of credentials (`CredentialType` in
`credential.rs`). -/
inductive CredentialType where
  | UP (username password : String)
  | USK (username password private_key : String)
  | SNMP (username password community auth_algorithm privacy_password
      privacy_algorithm : String)
deriving DecidableEq

/-- Rust: `impl AsRef<str> for CredentialType`. -/
def CredentialType.as_ref : CredentialType → String
  | CredentialType.UP _ _ => "up"
  | CredentialType.USK _ _ _ => "usk"
  | CredentialType.SNMP _ _ _ _ _ _ => "snmp"

/-- The wire tag of a `CredentialType` variant from its
`#[serde(rename = "...")]` attribute in `credential.rs`. -/
def CredentialType.serde_name : CredentialType → String
  | CredentialType.UP _ _ => "up"
  | CredentialType.USK _ _ _ => "usk"
  | CredentialType.SNMP _ _ _ _ _ _ => "snmp"

/-- Rust: `CredentialType::map_password`, applying `f` to the password field
of whichever variant and keeping every other field. -/
def CredentialType.map_password {E : Type} (c : CredentialType)
    (f : String → Except E String) : Except E CredentialType :=
  match c with
  | CredentialType.UP username password =>
    match f password with
    | Except.error e => Except.error e
    | Except.ok p => Except.ok (CredentialType.UP username p)
  | CredentialType.USK username password private_key =>
    match f password with
    | Except.error e => Except.error e
    | Except.ok p => Except.ok (CredentialType.USK username p private_key)
  | CredentialType.SNMP username password community auth_algorithm
      privacy_password privacy_algorithm =>
    match f password with
    | Except.error e => Except.error e
    | Except.ok p => Except.ok (CredentialType.SNMP username p community
        auth_algorithm privacy_password privacy_algorithm)

/-- Specification helper: the username field common to all variants. -/
def CredentialType.username : CredentialType → String
  | CredentialType.UP u _ => u
  | CredentialType.USK u _ _ => u
  | CredentialType.SNMP u _ _ _ _ _ => u

/-- Specification helper: the private key, present only in `USK`. -/
def CredentialType.private_key : CredentialType → Option String
  | CredentialType.USK _ _ k => some k
  | _ => none

/-- Specification helper: the community string, present only in `SNMP`. -/
def CredentialType.community : CredentialType → Option String
  | CredentialType.SNMP _ _ c _ _ _ => some c
  | _ => none

/-- Specification helper: the auth algorithm, present only in `SNMP`. -/
def CredentialType.auth_algorithm : CredentialType → Option String
  | CredentialType.SNMP _ _ _ a _ _ => some a
  | _ => none

/-- Specification helper: the privacy password, present only in `SNMP`. -/
def CredentialType.privacy_password : CredentialType → Option String
  | CredentialType.SNMP _ _ _ _ p _ => some p
  | _ => none

/-- Specification helper: the privacy algorithm, present only in `SNMP`. -/
def CredentialType.privacy_algorithm : CredentialType → Option String
  | CredentialType.SNMP _ _ _ _ _ p => some p
  | _ => none

/-- Specification helper: whether two credential types are the same variant. -/
def CredentialType.same_variant : CredentialType → CredentialType → Bool
  | CredentialType.UP _ _, CredentialType.UP _ _ => true
  | CredentialType.USK _ _ _, CredentialType.USK _ _ _ => true
  | CredentialType.SNMP _ _ _ _ _ _, CredentialType.SNMP _ _ _ _ _ _ => true
  | _, _ => false

/-- Represents a set of credentials to be used for scanning to access a host
(`Credential` in `credential.rs`); the port is a `u16` embedded as `Nat`. -/
structure Credential where
  service : Service
  port : Option Nat
  credential_type : CredentialType
deriving DecidableEq

/-- Rust: `Credential::map_password`, keeping service and port and mapping
the password inside the credential type. -/
def Credential.map_password {E : Type} (c : Credential)
    (f : String → Except E String) : Except E Credential :=
  match c.credential_type.map_password f with
  | Except.error e => Except.error e
  | Except.ok ct =>
    Except.ok { service := c.service, port := c.port, credential_type := ct }

/-- Rust: `Credential::password`, the password field of whichever variant. -/
def Credential.password (c : Credential) : String :=
  match c.credential_type with
  | CredentialType.UP _ password => password
  | CredentialType.USK _ password _ => password
  | CredentialType.SNMP _ password _ _ _ _ => password

/-- Specification helper: the credential with its password replaced. -/
def Credential.with_password (c : Credential) (p : String) : Credential :=
  { c with credential_type :=
      match c.credential_type with
      | CredentialType.UP u _ => CredentialType.UP u p
      | CredentialType.USK u _ k => CredentialType.USK u p k
      | CredentialType.SNMP u _ comm aa pp pa =>
          CredentialType.SNMP u p comm aa pp pa }

/-! ## Censored serialization -/

/-- Modelled from the spec: the serializer `crate::censor` (referenced by the
`serde(serialize_with = "crate::censor")` attributes of `credential.rs` but
whose source, the models crate root, is not among the provided files) yields
the literal string `"***"` regardless of content, including for empty
strings. -/
def censor (_ : String) : String := "***"

/-- The outward (censored) serialized form of a credential: the service name,
the optional port, the credential-type tag and the named secret fields, each
secret passed through `censor` exactly as the `serialize_with` attributes of
`credential.rs` prescribe (the `USK` private key serializes under the key
`"private"` per its `serde(rename)`). -/
structure SerializedCredential where
  service : String
  port : Option Nat
  tag : String
  fields : List (String × String)
deriving DecidableEq

/-- Censored serialization of a `Credential`, field for field after
`credential.rs`: non-secret fields (`service`, `port`, variant tag) pass
through, every secret string field goes through `censor`. -/
def Credential.serialize_censored (c : Credential) : SerializedCredential :=
  { service := c.service.as_ref
    port := c.port
    tag := c.credential_type.as_ref
    fields :=
      match c.credential_type with
      | CredentialType.UP username password =>
          [("username", censor username), ("password", censor password)]
      | CredentialType.USK username password private_key =>
          [("username", censor username), ("password", censor password),
           ("private", censor private_key)]
      | CredentialType.SNMP username password community auth_algorithm
          privacy_password privacy_algorithm =>
          [("username", censor username), ("password", censor password),
           ("community", censor community),
           ("auth_algorithm", censor auth_algorithm),
           ("privacy_password", censor privacy_password),
           ("privacy_algorithm", censor privacy_algorithm)] }

/-! ## Results, the store's append and the result poller
(`openvasd/src/controller/mod.rs` tests plus spec-modelled store pieces) -/

/-- Modelled from the spec: a scan `Result` record (its source `result.rs` is
not among the provided files): a monotonic integer id, optional message, host,
port and OID. -/
structure ScanResult where
  id : Nat
  message : Option String := none
  host : Option String := none
  port : Option Nat := none
  oid : Option String := none
deriving DecidableEq

/-- Rust: rank of a phase in the order
`Stored < Requested < Running < {Stopped, Failed, Succeeded}`; the three
terminal phases share the top rank and are mutually incomparable. -/
def Phase.rank : Phase → Nat
  | Phase.Stored => 0
  | Phase.Requested => 1
  | Phase.Running => 2
  | _ => 3

/-- The strict order on phases induced by `Phase.rank`. -/
abbrev Phase.phase_lt (p q : Phase) : Prop := p.rank < q.rank

/-- Modelled from the spec: the status write performed by the result poller
(its sources `controller/results.rs` and the storage crate are not among the
provided files) replaces the stored status with the fetched one, except that
a fetched status whose phase is earlier than the stored one is discarded. -/
def update_status (stored fetched : Status) : Status :=
  if fetched.status.rank < stored.status.rank then stored else fetched

/-- Modelled from the spec: the store's `append_results` (storage sources not
among the provided files) appends the fetched results to the scan's result
log, assigning each appended result the next dense id — the current length of
the log plus its position in the batch — as pinned by spec invariant (1)
"Result ids form a dense prefix [0, n)" and by the `fetch_results` test
asserting `results[i].id == i` after replayed scanner ids. -/
def append_results (log new : List ScanResult) : List ScanResult :=
  log ++ (List.enumFrom log.length new).map fun p => { p.2 with id := p.1 }

/-- Rust: `FakeScanner::fetch_results` from the `controller/mod.rs` tests.
The scanner's tick counter is passed explicitly; `uuid` stands for
`uuid::Uuid::new_v4().to_string()` (a fresh string per result).  Returns the
fetched `(Status, results)` pair and the incremented counter. -/
def FakeScanner.fetch_results (uuid : Nat → String) (count : Nat) :
    (Status × List ScanResult) × Nat :=
  if count = 0 then
    (({ status := Phase.Requested }, []), count + 1)
  else if count ≤ 99 then
    (({ status := Phase.Running },
      (List.range count).map fun i => { id := i, message := some (uuid i) }),
     count + 1)
  else
    (({ status := Phase.Succeeded }, []), count + 1)

/-- The per-scan state the poller maintains: the fake scanner's counter, the
stored status and the stored result log. -/
structure PollState where
  count : Nat
  status : Status
  results : List ScanResult

/-- Modelled from the spec: one tick of the result poller on a single scan —
fetch from the scanner, append the results and write the status. -/
def poll_tick (uuid : Nat → String) (s : PollState) : PollState :=
  let r := FakeScanner.fetch_results uuid s.count
  { count := r.2
    status := update_status s.status r.1.1
    results := append_results s.results r.1.2 }

/-- Running the poller for `n` ticks from the freshly stored scan. -/
def poll_run (uuid : Nat → String) : Nat → PollState
  | 0 => { count := 0, status := {}, results := [] }
  | n + 1 => poll_tick uuid (poll_run uuid n)

/-- Result query selector: all results, a single index, or an inclusive
range `a-b`. -/
inductive Selector where
  | all
  | single (i : Nat)
  | slice (a b : Nat)

/-- Modelled from the spec: the store's `get_results(id, selector)` (entry and
storage sources not among the provided files): all results, the slice of
length 0 or 1 at a single index, or the inclusive range `[a, b]`;
out-of-range indices produce an empty slice. -/
def get_results (log : List ScanResult) : Selector → List ScanResult
  | Selector.all => log
  | Selector.single i => (log.drop i).take 1
  | Selector.slice a b => (log.drop a).take (b + 1 - a)

/-- The phase stored for the scan after `n` poller ticks against the fake
scanner. -/
def phase_expected (n : Nat) : Phase :=
  if n = 0 then Phase.Stored
  else if n = 1 then Phase.Requested
  else if n ≤ 100 then Phase.Running
  else Phase.Succeeded

/-- The length of the stored result log after `n` poller ticks against the
fake scanner. -/
def len_expected : Nat → Nat
  | 0 => 0
  | n + 1 => len_expected n + (if n = 0 then 0 else if n ≤ 99 then n else 0)

/-! ## Context and its staged builder (`openvasd/src/controller/context.rs`) -/

/-- Modelled from the spec: the `response::Response` header factory (its
source is not among the provided files) carries the advertised `api-version`
(always `"1"`), the `authentication` header value (empty until an
authentication scheme is added) and the optional `feed-version`. -/
structure Response where
  api_version : String := "1"
  authentication : String := ""
  feed_version : Option String := none
deriving DecidableEq

/-- Modelled from the spec: `Response::add_authentication` advertises the
given scheme in the `authentication` header (`x-api-key` or empty). -/
def Response.add_authentication (r : Response) (a : String) : Response :=
  { r with authentication := a }

/-- Rust: the `NoScanner` marker type of the staged builder. -/
inductive NoScanner where
  | mk
deriving DecidableEq

/-- Rust: the `Scanner<S>(S)` wrapper marking an attached scanner. -/
structure Scanner (S : Type) where
  val : S
deriving DecidableEq

/-- Rust: `ResultContext(Duration)`, the result poll interval (as ticks). -/
structure ResultContext where
  val : Nat
deriving DecidableEq

/-- Rust: `FeedContext`: feed path and verify interval (as ticks). -/
structure FeedContext where
  path : String
  verify_interval : Nat
deriving DecidableEq

/-- Rust: the default in-memory storage attached by `ContextBuilder::new`
(its source is not among the provided files; its contents are irrelevant to
the builder's frame properties, so it is embedded as an empty record). -/
structure InMemoryStorage where
  mk ::
deriving DecidableEq

/-- Rust: `ContextBuilder<S, DB, T>` from `context.rs`; `T` is the type-state
slot holding either `NoScanner` or `Scanner S`. -/
structure ContextBuilder (S DB T : Type) where
  scanner : T
  storage : DB
  result_config : Option ResultContext
  feed_config : Option FeedContext
  api_key : Option String
  enable_get_scans : Bool
  response : Response

/-- Rust: `Context<S, DB>` from `context.rs`; the `RwLock`-wrapped `oids`
pair and `abort` flag are embedded by their values. -/
structure Context (S DB : Type) where
  scanner : S
  response : Response
  db : DB
  oids : String × List String
  result_config : Option ResultContext
  feed_config : Option FeedContext
  api_key : Option String
  enable_get_scans : Bool
  abort : Bool

/-- Rust: `ContextBuilder::new`, starting with no scanner, default storage,
no result or feed config, no api key and `enable_get_scans = false`. -/
def ContextBuilder.new (S : Type) :
    ContextBuilder S InMemoryStorage NoScanner :=
  { scanner := NoScanner.mk
    storage := {}
    result_config := none
    feed_config := none
    api_key := none
    enable_get_scans := false
    response := {} }

/-- Rust: the builder method `result_config` (renamed here to avoid clashing
with the field projection). -/
def ContextBuilder.set_result_config {S DB T : Type}
    (b : ContextBuilder S DB T) (config : ResultContext) :
    ContextBuilder S DB T :=
  { b with result_config := some config }

/-- Rust: the builder method `api_key` (renamed here to avoid clashing with
the field projection): stores the key and, when one is given, advertises
`x-api-key` in the authentication header. -/
def ContextBuilder.set_api_key {S DB T : Type}
    (b : ContextBuilder S DB T) (key : Option String) :
    ContextBuilder S DB T :=
  let b2 := { b with api_key := key }
  if key.isSome then
    { b2 with response := b2.response.add_authentication "x-api-key" }
  else b2

/-- Rust: the builder method `enable_get_scans` (renamed here to avoid
clashing with the field projection). -/
def ContextBuilder.set_enable_get_scans {S DB T : Type}
    (b : ContextBuilder S DB T) (enable : Bool) : ContextBuilder S DB T :=
  { b with enable_get_scans := enable }

/-- Rust: the builder method `storage` (renamed here to avoid clashing with
the field projection). -/
def ContextBuilder.set_storage {S DB T : Type}
    (b : ContextBuilder S DB T) (storage : DB) : ContextBuilder S DB T :=
  { b with storage := storage }

/-- Rust: the builder method `scanner` (renamed here to avoid clashing with
the field projection): only available while no scanner is attached, moves the
builder into the `Scanner S` type-state and keeps every other field. -/
def ContextBuilder.set_scanner {S DB : Type}
    (b : ContextBuilder S DB NoScanner) (s : S) :
    ContextBuilder S DB (Scanner S) :=
  { scanner := Scanner.mk s
    storage := b.storage
    result_config := b.result_config
    feed_config := b.feed_config
    api_key := b.api_key
    enable_get_scans := b.enable_get_scans
    response := b.response }

/-- Rust: `ContextBuilder::build`, only available in the `Scanner S`
type-state: unwraps the scanner, keeps every configured field and starts the
`oids` pair and the `abort` flag at their defaults. -/
def ContextBuilder.build {S DB : Type}
    (b : ContextBuilder S DB (Scanner S)) : Context S DB :=
  { scanner := b.scanner.val
    response := b.response
    db := b.storage
    oids := ("", [])
    result_config := b.result_config
    feed_config := b.feed_config
    abort := false
    api_key := b.api_key
    enable_get_scans := b.enable_get_scans }

/-- Rust: `NoOpScanner`, the effect-free test scanner. -/
inductive NoOpScanner where
  | mk
deriving DecidableEq

/-- Rust: `impl Default for Context<NoOpScanner, InMemoryStorage<...>>`:
`ContextBuilder::new().scanner(Default::default()).build()`. -/
def Context.default : Context NoOpScanner InMemoryStorage :=
  ((ContextBuilder.new NoOpScanner).set_scanner NoOpScanner.mk).build

/-- The HEAD `/` response: status code and the advertised headers. -/
structure HeadResponse where
  status_code : Nat
  api_version : String
  authentication : String
  feed_version : Option String
deriving DecidableEq

/-- Modelled from the spec: the HEAD `/` handler (its source `entry.rs` is
not among the provided files) answers 200 with the `api-version`,
`authentication` and optional `feed-version` headers taken from the context's
response factory. -/
def head_root {S DB : Type} (ctx : Context S DB) : HeadResponse :=
  { status_code := 200
    api_version := ctx.response.api_version
    authentication := ctx.response.authentication
    feed_version := ctx.response.feed_version }

/-! ## Helper lemmas -/

lemma append_results_nil (log : List ScanResult) : append_results log [] = log := by
  simp [append_results]

lemma append_results_length (log new : List ScanResult) :
    (append_results log new).length = log.length + new.length := by
  simp [append_results]

lemma append_results_map_id (log new : List ScanResult)
    (h : log.map ScanResult.id = List.range log.length) :
    (append_results log new).map ScanResult.id =
      List.range (log.length + new.length) := by
  unfold append_results
  rw [List.map_append, h, List.map_map]
  have h2 : (ScanResult.id ∘ fun p : Nat × ScanResult => { p.2 with id := p.1 })
      = Prod.fst := rfl
  rw [h2, List.enumFrom_map_fst, List.range_eq_range', List.range_eq_range']
  have h3 := List.range'_append_1 0 log.length new.length
  rw [Nat.zero_add] at h3
  rw [h3, Nat.add_comm]

/-! ## Claim theorems -/

/-- C5: the initial phase of a scan is `Stored`: the default value of `Phase`
is `Stored`, and a `Status` constructed with defaults (as on POST /scans) has
phase `Stored` with no start-time, no end-time and no host info. -/
theorem initial_phase_stored :
    Phase.default = Phase.Stored ∧
    Status.default.status = Phase.Stored ∧
    Status.default.start_time = none ∧
    Status.default.end_time = none ∧
    Status.default.host_info = none :=
  ⟨rfl, rfl, rfl, rfl, rfl⟩

/-- C6: `Phase.is_running` holds exactly on the two live phases `Requested`
and `Running`, `Status.is_done` is the negation of `Status.is_running`, and
every status is classified as exactly one of live or done. -/
theorem is_running_iff_live :
    (∀ p : Phase,
      p.is_running = true ↔ (p = Phase.Requested ∨ p = Phase.Running)) ∧
    (∀ s : Status, s.is_done = !s.is_running) ∧
    (∀ s : Status, (s.is_running = true ∧ s.is_done = false) ∨
      (s.is_running = false ∧ s.is_done = true)) := by
  refine ⟨?_, fun s => rfl, ?_⟩
  · intro p
    cases p <;> simp [Phase.is_running]
  · intro s
    cases h : s.is_running <;> simp [Status.is_done, h]

/-- C10: the textual names of the model enums agree with their wire names:
`Phase`'s `Display` output is the snake_case serialization name of the
variant and lies in the six phase names; `Service.as_ref` and
`CredentialType.as_ref` return exactly the `serde(rename)` tags. -/
theorem wire_names_agree :
    (∀ p : Phase, Phase.fmt p = Phase.serde_name p ∧
      Phase.fmt p ∈
        ["stored", "requested", "running", "stopped", "failed", "succeeded"]) ∧
    (∀ s : Service, Service.as_ref s = Service.serde_name s ∧
      Service.as_ref s ∈ ["ssh", "smb", "esxi", "snmp"]) ∧
    (∀ c : CredentialType, CredentialType.as_ref c = CredentialType.serde_name c ∧
      CredentialType.as_ref c ∈ ["up", "usk", "snmp"]) := by
  refine ⟨?_, ?_, ?_⟩
  · intro p; cases p <;> exact ⟨rfl, by decide⟩
  · intro s; cases s <;> exact ⟨rfl, by decide⟩
  · intro c; cases c <;> exact ⟨rfl, by simp [CredentialType.as_ref]⟩

/-- C4: the stored phase never decreases in the order
`Stored < Requested < Running < {Stopped, Failed, Succeeded}`: the poller's
status write is monotonic in this order, a fetched status whose phase is
earlier than the stored one is discarded, and otherwise the fetched status is
written; the listed order facts pin the intended partial order, the three
terminal phases being mutually incomparable. -/
theorem poller_phase_monotone :
    (∀ s f : Status, ¬ Phase.phase_lt (update_status s f).status s.status) ∧
    (∀ s f : Status, Phase.phase_lt f.status s.status → update_status s f = s) ∧
    (∀ s f : Status, ¬ Phase.phase_lt f.status s.status → update_status s f = f) ∧
    Phase.phase_lt Phase.Stored Phase.Requested ∧
    Phase.phase_lt Phase.Requested Phase.Running ∧
    Phase.phase_lt Phase.Running Phase.Stopped ∧
    Phase.phase_lt Phase.Running Phase.Failed ∧
    Phase.phase_lt Phase.Running Phase.Succeeded ∧
    (¬ Phase.phase_lt Phase.Stopped Phase.Failed ∧
     ¬ Phase.phase_lt Phase.Failed Phase.Succeeded ∧
     ¬ Phase.phase_lt Phase.Succeeded Phase.Stopped) := by
  refine ⟨?_, ?_, ?_, by decide, by decide, by decide, by decide, by decide,
    by decide, by decide, by decide⟩
  · intro s f
    unfold update_status
    split
    · exact Nat.lt_irrefl _
    · assumption
  · intro s f h
    unfold update_status
    rw [if_pos h]
  · intro s f h
    unfold update_status
    rw [if_neg h]

/-- C4 witness: a concrete discarded write — a fetched `Stored` status
against a stored `Running` one leaves the stored status in place. -/
theorem poller_phase_monotone_witness :
    update_status { status := Phase.Running } { status := Phase.Stored } =
      { status := Phase.Running } :=
  poller_phase_monotone.2.1 { status := Phase.Running }
    { status := Phase.Stored } (by decide)

/-- C1: outward (censored) serialization replaces every secret string field
of the credential-type with the literal `"***"` regardless of content, so the
serialized forms of two credentials differing only in secret field values are
identical and no serialization contains a plaintext secret. -/
theorem serialize_censored_masks_secrets :
    (∀ (c : Credential) (kv : String × String),
      kv ∈ (Credential.serialize_censored c).fields → kv.2 = "***") ∧
    (∀ c1 c2 : Credential, c1.service = c2.service → c1.port = c2.port →
      CredentialType.same_variant c1.credential_type c2.credential_type = true →
      Credential.serialize_censored c1 = Credential.serialize_censored c2) := by
  constructor
  · rintro ⟨s, p, ct⟩ kv hkv
    cases ct with
    | UP u pw =>
      simp [Credential.serialize_censored, censor] at hkv
      rcases hkv with h | h <;> simp [h]
    | USK u pw k =>
      simp [Credential.serialize_censored, censor] at hkv
      rcases hkv with h | h | h <;> simp [h]
    | SNMP u pw comm aa pp pa =>
      simp [Credential.serialize_censored, censor] at hkv
      rcases hkv with h | h | h | h | h | h <;> simp [h]
  · rintro ⟨s1, p1, ct1⟩ ⟨s2, p2, ct2⟩ hs hp hv
    simp only at hs hp
    subst hs; subst hp
    cases ct1 <;> cases ct2 <;>
      simp [CredentialType.same_variant] at hv <;>
      simp [Credential.serialize_censored, censor, CredentialType.as_ref]

/-- C1 witness: a secret field of a concrete credential serializes to
`"***"`, and two concrete credentials differing only in username and password
have identical censored serializations. -/
theorem serialize_censored_masks_secrets_witness :
    (("password", censor "hunter2") : String × String).2 = "***" ∧
    Credential.serialize_censored
        ⟨Service.SSH, none, CredentialType.UP "root" "hunter2"⟩ =
      Credential.serialize_censored
        ⟨Service.SSH, none, CredentialType.UP "admin" "s3cret"⟩ :=
  ⟨serialize_censored_masks_secrets.1
      ⟨Service.SSH, none, CredentialType.UP "root" "hunter2"⟩
      ("password", censor "hunter2") (by decide),
   serialize_censored_masks_secrets.2
      ⟨Service.SSH, none, CredentialType.UP "root" "hunter2"⟩
      ⟨Service.SSH, none, CredentialType.UP "admin" "s3cret"⟩
      rfl rfl (by decide)⟩

/-- C9: `Credential::map_password` fails exactly when `f` fails on the
credential's password; on success the returned credential is the original
with only the password replaced by `f`'s output — service, port, username,
private key, community, auth algorithm, privacy password, privacy algorithm
and the variant are unchanged — and its `password()` is `f`'s output. -/
theorem map_password_frame {E : Type} (f : String → Except E String)
    (c : Credential) :
    (∀ e : E, c.map_password f = Except.error e ↔
      f c.password = Except.error e) ∧
    (∀ p : String, f c.password = Except.ok p →
      c.map_password f = Except.ok (c.with_password p) ∧
      (c.with_password p).password = p ∧
      (c.with_password p).service = c.service ∧
      (c.with_password p).port = c.port ∧
      (c.with_password p).credential_type.username =
        c.credential_type.username ∧
      (c.with_password p).credential_type.private_key =
        c.credential_type.private_key ∧
      (c.with_password p).credential_type.community =
        c.credential_type.community ∧
      (c.with_password p).credential_type.auth_algorithm =
        c.credential_type.auth_algorithm ∧
      (c.with_password p).credential_type.privacy_password =
        c.credential_type.privacy_password ∧
      (c.with_password p).credential_type.privacy_algorithm =
        c.credential_type.privacy_algorithm ∧
      CredentialType.same_variant (c.with_password p).credential_type
        c.credential_type = true) := by
  rcases c with ⟨s, pt, ct⟩
  cases ct <;> constructor <;>
    first
    | · intro e
        constructor <;>
          · intro h
            simp only [Credential.map_password, CredentialType.map_password,
              Credential.password] at h ⊢
            cases hf : f _ <;> rw [hf] at h <;> simp_all
    | · intro p hp
        simp only [Credential.password] at hp
        refine ⟨?_, rfl, rfl, rfl, rfl, rfl, rfl, rfl, rfl, rfl, rfl⟩
        simp [Credential.map_password, CredentialType.map_password, hp,
          Credential.with_password]

/-- C9 witness: mapping a concrete credential's password with a function that
returns `"new"` succeeds and only changes the password. -/
theorem map_password_frame_witness :
    Credential.map_password
        ⟨Service.SSH, none, CredentialType.UP "root" "old"⟩
        (fun _ => (Except.ok "new" : Except String String)) =
      Except.ok ⟨Service.SSH, none, CredentialType.UP "root" "new"⟩ ∧
    Credential.password
        ⟨Service.SSH, none, CredentialType.UP "root" "new"⟩ = "new" := by
  have h := (map_password_frame
      (fun _ => (Except.ok "new" : Except String String))
      ⟨Service.SSH, none, CredentialType.UP "root" "old"⟩).2 "new" rfl
  exact ⟨h.1, h.2.1⟩

/-- C7: the context builder is staged by type-state — `build` is only
available once a scanner has been attached (its domain is the `Scanner S`
state, reachable only through `set_scanner`, so every `Context` carries the
attached scanner); `new` starts with no api key, `enable_get_scans = false`
and no result or feed config; `set_scanner` and `build` keep every
previously-set configuration field, and `build` starts the `oids` pair and
the `abort` flag at their defaults. -/
theorem context_builder_staged (S DB : Type) :
    ((ContextBuilder.new S).api_key = none ∧
     (ContextBuilder.new S).enable_get_scans = false ∧
     (ContextBuilder.new S).result_config = none ∧
     (ContextBuilder.new S).feed_config = none) ∧
    (∀ (b : ContextBuilder S DB NoScanner) (s : S),
      (b.set_scanner s).api_key = b.api_key ∧
      (b.set_scanner s).enable_get_scans = b.enable_get_scans ∧
      (b.set_scanner s).result_config = b.result_config ∧
      (b.set_scanner s).feed_config = b.feed_config ∧
      (b.set_scanner s).storage = b.storage ∧
      (b.set_scanner s).response = b.response ∧
      (b.set_scanner s).scanner = Scanner.mk s) ∧
    (∀ b : ContextBuilder S DB (Scanner S),
      b.build.api_key = b.api_key ∧
      b.build.enable_get_scans = b.enable_get_scans ∧
      b.build.result_config = b.result_config ∧
      b.build.feed_config = b.feed_config ∧
      b.build.db = b.storage ∧
      b.build.response = b.response ∧
      b.build.scanner = b.scanner.val ∧
      b.build.oids = ("", []) ∧
      b.build.abort = false) :=
  ⟨⟨rfl, rfl, rfl, rfl⟩,
   fun _ _ => ⟨rfl, rfl, rfl, rfl, rfl, rfl, rfl⟩,
   fun _ => ⟨rfl, rfl, rfl, rfl, rfl, rfl, rfl, rfl, rfl⟩⟩

/-- C8: on a fresh default server HEAD `/` answers 200 with `api-version`
`"1"` and an empty `authentication` header; and `set_api_key` with a key is
exactly what advertises `x-api-key` — passing `none` leaves the response
untouched, and no other builder step changes the authentication header. -/
theorem head_root_headers :
    head_root Context.default =
      { status_code := 200, api_version := "1", authentication := "",
        feed_version := none } ∧
    (∀ (S DB T : Type) (b : ContextBuilder S DB T) (k : String),
      (b.set_api_key (some k)).response.authentication = "x-api-key" ∧
      (b.set_api_key (some k)).api_key = some k) ∧
    (∀ (S DB T : Type) (b : ContextBuilder S DB T),
      (b.set_api_key none).response = b.response ∧
      (b.set_api_key none).api_key = none) ∧
    (∀ (S DB T : Type) (b : ContextBuilder S DB T) (d : ResultContext) (e : Bool),
      (b.set_result_config d).response = b.response ∧
      (b.set_enable_get_scans e).response = b.response) ∧
    (∀ (S DB : Type) (b : ContextBuilder S DB NoScanner) (s : S),
      (b.set_scanner s).response = b.response ∧
      ((b.set_scanner s).build).response = b.response) :=
  ⟨rfl,
   fun _ _ _ _ _ => ⟨rfl, rfl⟩,
   fun _ _ _ _ => ⟨rfl, rfl⟩,
   fun _ _ _ _ _ _ => ⟨rfl, rfl⟩,
   fun _ _ _ _ => ⟨rfl, rfl⟩⟩

/-- The state invariant of the poller run against the fake scanner: the
counter tracks the tick, the stored status is as expected, and the result log
has the expected length with ids forming the dense range `[0, n)`. -/
lemma poll_run_spec (uuid : Nat → String) (n : Nat) :
    (poll_run uuid n).count = n ∧
    (poll_run uuid n).status = { status := phase_expected n } ∧
    (poll_run uuid n).results.length = len_expected n ∧
    (poll_run uuid n).results.map ScanResult.id = List.range (len_expected n) := by
  induction n with
  | zero => exact ⟨rfl, rfl, rfl, rfl⟩
  | succ n ih =>
    obtain ⟨hc, hs, hl, hm⟩ := ih
    by_cases h0 : n = 0
    · subst h0
      refine ⟨?_, ?_, ?_, ?_⟩
      · show (poll_tick uuid (poll_run uuid 0)).count = 1
        simp [poll_tick, FakeScanner.fetch_results, hc]
      · show (poll_tick uuid (poll_run uuid 0)).status = { status := phase_expected 1 }
        simp [poll_tick, FakeScanner.fetch_results, hc, hs, update_status,
          Phase.rank, phase_expected]
      · show (poll_tick uuid (poll_run uuid 0)).results.length = len_expected 1
        simp [poll_tick, FakeScanner.fetch_results, hc, append_results_nil,
          hl, len_expected]
      · show (poll_tick uuid (poll_run uuid 0)).results.map ScanResult.id =
            List.range (len_expected 1)
        simp [poll_tick, FakeScanner.fetch_results, hc, append_results_nil,
          hm, len_expected]
    · by_cases h99 : n ≤ 99
      · have hr : FakeScanner.fetch_results uuid n =
            (({ status := Phase.Running },
              (List.range n).map fun i => { id := i, message := some (uuid i) }),
             n + 1) := by
          simp [FakeScanner.fetch_results, h0, h99]
        have hpe : phase_expected (n + 1) = Phase.Running := by
          unfold phase_expected
          rw [if_neg (by omega), if_neg (by omega), if_pos (by omega)]
        have hpn : phase_expected n = Phase.Requested ∨
            phase_expected n = Phase.Running := by
          unfold phase_expected
          by_cases h1 : n = 1
          · left; rw [if_neg h0, if_pos h1]
          · right; rw [if_neg h0, if_neg h1, if_pos (by omega)]
        refine ⟨?_, ?_, ?_, ?_⟩
        · show (poll_tick uuid (poll_run uuid n)).count = n + 1
          simp [poll_tick, hc, hr]
        · show (poll_tick uuid (poll_run uuid n)).status =
              { status := phase_expected (n + 1) }
          rcases hpn with hp | hp <;>
            · rw [hpe]
              simp [poll_tick, hc, hr, hs, hp, update_status, Phase.rank]
        · show (poll_tick uuid (poll_run uuid n)).results.length =
              len_expected (n + 1)
          simp [poll_tick, hc, hr, append_results_length, hl, len_expected,
            h0, h99]
        · show (poll_tick uuid (poll_run uuid n)).results.map ScanResult.id =
              List.range (len_expected (n + 1))
          have hmap := append_results_map_id (poll_run uuid n).results
              ((List.range n).map fun i => { id := i, message := some (uuid i) })
              (by rw [hm, hl])
          simp only [poll_tick, hc, hr]
          rw [hmap]
          congr 1
          simp only [List.length_map, List.length_range, hl]
          simp [len_expected, h0, h99]
      · have hr : FakeScanner.fetch_results uuid n =
            (({ status := Phase.Succeeded }, []), n + 1) := by
          simp [FakeScanner.fetch_results, h0, h99]
        have hpe : phase_expected (n + 1) = Phase.Succeeded := by
          unfold phase_expected
          rw [if_neg (by omega), if_neg (by omega), if_neg (by omega)]
        have hpn : phase_expected n = Phase.Running ∨
            phase_expected n = Phase.Succeeded := by
          unfold phase_expected
          by_cases h100 : n ≤ 100
          · left; rw [if_neg h0, if_neg (by omega), if_pos h100]
          · right; rw [if_neg h0, if_neg (by omega), if_neg h100]
        refine ⟨?_, ?_, ?_, ?_⟩
        · show (poll_tick uuid (poll_run uuid n)).count = n + 1
          simp [poll_tick, hc, hr]
        · show (poll_tick uuid (poll_run uuid n)).status =
              { status := phase_expected (n + 1) }
          rcases hpn with hp | hp <;>
            · rw [hpe]
              simp [poll_tick, hc, hr, hs, hp, update_status, Phase.rank]
        · show (poll_tick uuid (poll_run uuid n)).results.length =
              len_expected (n + 1)
          simp [poll_tick, hc, hr, append_results_nil, hl, len_expected,
            h0, h99]
        · show (poll_tick uuid (poll_run uuid n)).results.map ScanResult.id =
              List.range (len_expected (n + 1))
          simp [poll_tick, hc, hr, append_results_nil, hm, len_expected,
            h0, h99]

/-- C2: the ids of the stored result log always form the dense range
`[0, n)`: the store's append keeps the dense-id invariant for every incoming
batch — including batches whose scanner-assigned ids were already seen — and
the invariant holds after any number of poller ticks against the fake
scanner, which replays ids `[0, tick)` on every tick. -/
theorem result_log_ids_dense :
    (∀ (log new : List ScanResult),
      log.map ScanResult.id = List.range log.length →
      (append_results log new).map ScanResult.id =
        List.range (append_results log new).length) ∧
    (∀ (uuid : Nat → String) (n : Nat),
      (poll_run uuid n).results.map ScanResult.id =
        List.range (poll_run uuid n).results.length) := by
  constructor
  · intro log new h
    rw [append_results_length]
    exact append_results_map_id log new h
  · intro uuid n
    obtain ⟨-, -, hl, hm⟩ := poll_run_spec uuid n
    rw [hm, hl]

/-- C2 witness: appending a batch that replays the already-stored id 0 still
leaves the log's ids dense. -/
theorem result_log_ids_dense_witness :
    (append_results [{ id := 0 }] [{ id := 0 }]).map ScanResult.id =
      List.range (append_results [{ id := 0 }] [{ id := 0 }]).length :=
  result_log_ids_dense.1 [{ id := 0 }] [{ id := 0 }] (by decide)

/-- C3: against the fake scanner (Requested on tick 0, Running with ids
`[0, tick)` on ticks 1..=99, Succeeded with no results from tick 100), once
the stored phase reaches Succeeded the result log holds exactly 4950 results
with `results[i].id = i`; the single-index queries at 0 and 4949 return one
result with that id, and the inclusive range query `4900-4923` returns 24
results with ids 4900..4923. -/
theorem fake_scanner_full_lifecycle (uuid : Nat → String) :
    (poll_run uuid 101).status.status = Phase.Succeeded ∧
    (poll_run uuid 101).results.length = 4950 ∧
    (poll_run uuid 101).results.map ScanResult.id = List.range 4950 ∧
    (get_results (poll_run uuid 101).results (Selector.single 0)).map
        ScanResult.id = [0] ∧
    (get_results (poll_run uuid 101).results (Selector.single 4949)).map
        ScanResult.id = [4949] ∧
    (get_results (poll_run uuid 101).results (Selector.slice 4900 4923)).length
        = 24 ∧
    (get_results (poll_run uuid 101).results (Selector.slice 4900 4923)).map
        ScanResult.id = List.range' 4900 24 := by
  obtain ⟨-, hs, hl, hm⟩ := poll_run_spec uuid 101
  have hlen : len_expected 101 = 4950 := by decide
  rw [hlen] at hl hm
  have hsplit1 : List.range' 0 4950 = List.range' 0 4949 ++ List.range' 4949 1 := by
    have h := List.range'_append_1 0 4949 1
    rw [Nat.zero_add] at h
    norm_num at h
    exact h.symm
  have hsplit2 : List.range' 0 4950 =
      List.range' 0 4900 ++ (List.range' 4900 24 ++ List.range' 4924 26) := by
    have h1 := List.range'_append_1 4900 24 26
    have h2 := List.range'_append_1 0 4900 50
    rw [Nat.zero_add] at h2
    norm_num at h1 h2
    rw [h1, h2]
  refine ⟨by rw [hs]; decide, hl, hm, ?_, ?_, ?_, ?_⟩
  · show (((poll_run uuid 101).results.drop 0).take 1).map ScanResult.id = [0]
    rw [List.map_take, List.map_drop, hm, List.drop_zero, List.take_range]
    decide
  · show (((poll_run uuid 101).results.drop 4949).take 1).map ScanResult.id
        = [4949]
    rw [List.map_take, List.map_drop, hm, List.range_eq_range', hsplit1,
      List.drop_left' (by simp)]
    decide
  · show (((poll_run uuid 101).results.drop 4900).take (4923 + 1 - 4900)).length
        = 24
    simp only [List.length_take, List.length_drop, hl]
    omega
  · show (((poll_run uuid 101).results.drop 4900).take (4923 + 1 - 4900)).map
        ScanResult.id = List.range' 4900 24
    rw [List.map_take, List.map_drop, hm, List.range_eq_range', hsplit2,
      List.drop_left' (by simp)]
    have h24 : (4923:Nat) + 1 - 4900 = 24 := by norm_num
    rw [h24, List.take_left' (by simp)]

end OpenVAS
